import Mathlib

/-!
Shallow embedding of the Kirana Konnect point-of-sale backend (`src/app.py`).

Record kinds mirror the SQLAlchemy models (`Customer`, `Bill`, `BillItem`,
`Payment`, `Product`, `Notification`); monetary `Float` columns are modelled
as rationals, store-assigned integer identities as `Nat`.  Timestamp columns
are omitted except for `Bill.created_date` (a day index), which the dashboard
statistics filter on; no verified claim reads the other timestamps.
-/

namespace Kirana

/-- Mirrors the `Customer` model (timestamps omitted). -/
structure Customer where
  id : Nat
  name : String
  phone : String
  address : Option String
  aadhar_number : Option String
  email : Option String
  deriving Repr, DecidableEq

/-- Mirrors the `Bill` model.  `created_date` stands for the calendar day of
`created_at`, the only part of the timestamp the code filters on. -/
structure Bill where
  id : Nat
  bill_number : String
  customer_id : Option Nat
  customer_name : Option String
  subtotal : ℚ
  tax_amount : ℚ
  discount_amount : ℚ
  total_amount : ℚ
  payment_mode : String
  payment_status : String
  generated_by : String
  created_date : Nat
  deriving Repr, DecidableEq

/-- Mirrors the `BillItem` model. -/
structure BillItem where
  id : Nat
  bill_id : Nat
  item_name : String
  quantity : ℚ
  unit_price : ℚ
  total_price : ℚ
  weight : Option ℚ
  price_per_kg : Option ℚ
  deriving Repr, DecidableEq

/-- Mirrors the `Payment` model (timestamp omitted). -/
structure Payment where
  id : Nat
  customer_id : Nat
  bill_id : Option Nat
  amount : ℚ
  payment_mode : String
  reference_number : Option String
  notes : Option String
  deriving Repr, DecidableEq

/-- Mirrors the `Product` model (timestamps and expiry omitted; no verified
claim reads them). -/
structure Product where
  id : Nat
  name : String
  barcode : Option String
  category : Option String
  price : ℚ
  cost_price : ℚ
  price_per_kg : Option ℚ
  is_weight_based : Bool
  stock_quantity : Int
  reorder_level : Int
  deriving Repr, DecidableEq

/-- Mirrors the `Notification` model; the source column `type` is rendered
`ntype` (timestamp omitted). -/
structure Notification where
  id : Nat
  title : String
  message : String
  ntype : String
  priority : String
  is_read : Bool
  customer_id : Option Nat
  bill_id : Option Nat
  product_id : Option Nat
  deriving Repr, DecidableEq

/-- The relational store: one table per model plus the store-assigned
identity counter. -/
structure Store where
  customers : List Customer
  bills : List Bill
  bill_items : List BillItem
  payments : List Payment
  products : List Product
  notifications : List Notification
  next_id : Nat
  deriving Repr, DecidableEq

def emptyStore : Store :=
  { customers := [], bills := [], bill_items := [], payments := [],
    products := [], notifications := [], next_id := 1 }

/-- SQL `SUM` over the selected column: `NULL` (`none`) when no row
matches, otherwise the sum. -/
def sqlSum (l : List ℚ) : Option ℚ :=
  match l with
  | [] => none
  | _ :: _ => some l.sum

/-- Python `x or 0` applied to a nullable numeric scalar: `None` and `0`
both collapse to `0`, anything else passes through. -/
def pyOr0 (x : Option ℚ) : ℚ :=
  match x with
  | none => 0
  | some v => if v = 0 then 0 else v

theorem pyOr0_sqlSum (l : List ℚ) : pyOr0 (sqlSum l) = l.sum := by
  cases l with
  | nil => simp [sqlSum, pyOr0]
  | cons a t =>
      simp only [sqlSum, pyOr0]
      split <;> simp_all

/-- `Customer.outstanding_balance` (app.py lines 48-60): the two aggregate
queries with their `or 0` guards, subtracted. -/
def outstanding_balance (s : Store) (cid : Nat) : ℚ :=
  let total_bills := pyOr0 (sqlSum
    ((s.bills.filter (fun b =>
        b.customer_id == some cid && b.payment_status != "paid")).map
      (fun b => b.total_amount)))
  let total_payments := pyOr0 (sqlSum
    ((s.payments.filter (fun p => p.customer_id == cid)).map
      (fun p => p.amount)))
  total_bills - total_payments

/-- C1: for every customer, `outstanding_balance` is exactly the sum of
`total_amount` over that customer's non-`paid` bills minus the sum of
`amount` over that customer's payments (empty sums being 0, so the raw
difference is preserved unclamped, negative overpayments included); in
particular a customer with no bills and no payments yields 0. -/
theorem C1_outstanding_balance (s : Store) (cid : Nat) :
    outstanding_balance s cid
      = ((s.bills.filter (fun b =>
            b.customer_id == some cid && b.payment_status != "paid")).map
          (fun b => b.total_amount)).sum
        - ((s.payments.filter (fun p => p.customer_id == cid)).map
            (fun p => p.amount)).sum
    ∧ ((∀ b ∈ s.bills, b.customer_id ≠ some cid) →
       (∀ p ∈ s.payments, p.customer_id ≠ cid) →
       outstanding_balance s cid = 0) := by
  constructor
  · unfold outstanding_balance
    rw [pyOr0_sqlSum, pyOr0_sqlSum]
  · intro hb hp
    unfold outstanding_balance
    rw [pyOr0_sqlSum, pyOr0_sqlSum]
    have hbnil : s.bills.filter (fun b =>
        b.customer_id == some cid && b.payment_status != "paid") = [] := by
      rw [List.filter_eq_nil_iff]
      intro b hbmem
      have := hb b hbmem
      simp [this]
    have hpnil : s.payments.filter (fun p => p.customer_id == cid) = [] := by
      rw [List.filter_eq_nil_iff]
      intro p hpmem
      have := hp p hpmem
      simp [this]
    rw [hbnil, hpnil]
    simp

/-- Concrete store for the C1 witness: customer 1 overpays a pending bill,
customer 2 owns nothing. -/
def w1 : Store :=
  { emptyStore with
    customers :=
      [ { id := 1, name := "A", phone := "9", address := none,
          aadhar_number := none, email := none },
        { id := 2, name := "B", phone := "8", address := none,
          aadhar_number := none, email := none } ],
    bills :=
      [ { id := 1, bill_number := "KK-2025-1000", customer_id := some 1,
          customer_name := some "A", subtotal := 1000, tax_amount := 0,
          discount_amount := 0, total_amount := 1000,
          payment_mode := "credit", payment_status := "pending",
          generated_by := "System", created_date := 1 } ],
    payments :=
      [ { id := 2, customer_id := 1, bill_id := none, amount := 1400,
          payment_mode := "cash", reference_number := none, notes := none } ],
    next_id := 3 }

theorem C1_outstanding_balance_witness : outstanding_balance w1 2 = 0 :=
  (C1_outstanding_balance w1 2).2 (by decide) (by decide)

/-- Dashboard profit-growth arithmetic (app.py lines 616-623): growth starts
at 0, is the ordinary percentage change when yesterday's profit is positive,
100 when yesterday is zero and today is positive, 0 when both are zero. -/
def profit_growth (yesterday_profit today_profit : ℚ) : ℚ :=
  if yesterday_profit > 0 then
    ((today_profit - yesterday_profit) / yesterday_profit) * 100
  else if yesterday_profit = 0 ∧ today_profit > 0 then 100
  else if yesterday_profit = 0 ∧ today_profit = 0 then 0
  else 0

/-- C9: the daily profit growth is 0% when both days have zero profit, 100%
when the prior day is zero and the current day positive, and the ordinary
percentage change `((today - yesterday) / yesterday) * 100` when the prior
day's profit is positive. -/
theorem C9_profit_growth_cases (y t : ℚ) :
    (y = 0 → t = 0 → profit_growth y t = 0)
    ∧ (y = 0 → t > 0 → profit_growth y t = 100)
    ∧ (y > 0 → profit_growth y t = ((t - y) / y) * 100) := by
  refine ⟨?_, ?_, ?_⟩
  · intro hy ht
    subst hy; subst ht
    simp [profit_growth]
  · intro hy ht
    subst hy
    simp [profit_growth, ht, le_of_lt ht]
  · intro hy
    simp [profit_growth, hy]

theorem C9_profit_growth_witness :
    profit_growth 0 0 = 0 ∧ profit_growth 0 5 = 100
      ∧ profit_growth 2 3 = ((3 - 2) / 2) * 100 :=
  ⟨(C9_profit_growth_cases 0 0).1 rfl rfl,
   (C9_profit_growth_cases 0 5).2.1 rfl (by norm_num),
   (C9_profit_growth_cases 2 3).2.2 (by norm_num)⟩

/-! ## Billing transaction handler (`create_bill`, app.py lines 709-766) -/

/-- Errors surfaced by the embedded request handlers. -/
inductive ApiError where
  | keyError (key : String)
  | typeError (msg : String)
  | validation (msg : String)
  deriving Repr, DecidableEq

/-- One entry of the JSON `items` array of a bill request; `item_data[k]`
on an absent key is a `KeyError`, hence `Option` fields. -/
structure ItemRequest where
  name : Option String
  quantity : Option ℚ
  unit_price : Option ℚ
  total_price : Option ℚ
  weight : Option ℚ
  price_per_kg : Option ℚ
  deriving Repr, DecidableEq

/-- The JSON body accepted by `POST /api/bills`. -/
structure BillRequest where
  customer_id : Option Nat
  customer_name : Option String
  subtotal : Option ℚ
  tax_amount : Option ℚ
  discount_amount : Option ℚ
  total_amount : Option ℚ
  payment_mode : Option String
  generated_by : Option String
  include_dates : Option Bool
  reference_number : Option String
  items : Option (List ItemRequest)
  deriving Repr, DecidableEq

/-- `create_bill` (app.py lines 709-766).  `year` and `rand` stand for
`datetime.now().year` and `random.randint(1000, 9999)` in the bill-number
scheme.  The `Bill(...)` keyword arguments are evaluated left to right, so
the `data['subtotal']` / `data['total_amount']` / `data['payment_mode']`
lookups can each raise `KeyError` first; when all are present the
constructor itself raises `TypeError`, because it is passed
`include_dates=data.get('include_dates', True)` while the `Bill` model
(app.py lines 62-83) defines no `include_dates` column.  That exception is
raised before any `db.session.add`, so the handler never reaches the
`BillItem` loop, the conditional `Payment`, or `db.session.commit()`. -/
def create_bill (req : BillRequest) (s : Store) (year rand : Nat) :
    Except ApiError (Store × Nat × String) :=
  let _bill_number := "KK-" ++ toString year ++ "-" ++ toString rand
  match req.subtotal with
  | none => .error (.keyError "subtotal")
  | some _subtotal =>
    match req.total_amount with
    | none => .error (.keyError "total_amount")
    | some _total_amount =>
      match req.payment_mode with
      | none => .error (.keyError "payment_mode")
      | some _payment_mode =>
        .error (.typeError
          "include_dates is an invalid keyword argument for Bill")

/-- The store visible after a `POST /api/bills` request: the new state on a
committed success, the untouched state when the request errors (nothing was
committed; the session transaction is rolled back on teardown). -/
def create_bill_post (req : BillRequest) (s : Store) (year rand : Nat) :
    Store :=
  match create_bill req s year rand with
  | .ok (s2, _, _) => s2
  | .error _ => s

/-- C3: every `create_bill` request errors (the `Bill` constructor rejects
the undefined `include_dates` keyword before anything is added), and the
store keeps its Bill, BillItem and Payment rows unchanged. -/
theorem C3_create_bill_always_errors (req : BillRequest) (s : Store)
    (year rand : Nat) :
    (∃ e, create_bill req s year rand = Except.error e)
    ∧ (create_bill_post req s year rand).bills = s.bills
    ∧ (create_bill_post req s year rand).bill_items = s.bill_items
    ∧ (create_bill_post req s year rand).payments = s.payments := by
  cases hs : req.subtotal <;> cases ht : req.total_amount <;>
    cases hm : req.payment_mode <;>
      simp [create_bill, create_bill_post, hs, ht, hm]

/-- C4: `create_bill` is all-or-nothing — whenever any step of the attempt
fails, no Bill, BillItem or Payment row from that attempt remains. -/
theorem C4_create_bill_atomic (req : BillRequest) (s : Store)
    (year rand : Nat) (e : ApiError)
    (h : create_bill req s year rand = Except.error e) :
    (create_bill_post req s year rand).bills = s.bills
    ∧ (create_bill_post req s year rand).bill_items = s.bill_items
    ∧ (create_bill_post req s year rand).payments = s.payments := by
  unfold create_bill_post
  rw [h]
  exact ⟨rfl, rfl, rfl⟩

/-- A well-formed cash request naming an existing customer. -/
def req2 : BillRequest :=
  { customer_id := some 1, customer_name := some "A",
    subtotal := some 100, tax_amount := some 0, discount_amount := some 0,
    total_amount := some 100, payment_mode := some "cash",
    generated_by := some "System", include_dates := none,
    reference_number := none,
    items := some [{ name := some "Tata Salt", quantity := some 1,
                     unit_price := some 100, total_price := some 100,
                     weight := none, price_per_kg := none }] }

theorem C4_create_bill_atomic_witness :
    (create_bill_post req2 w1 2025 4242).bills = w1.bills
    ∧ (create_bill_post req2 w1 2025 4242).bill_items = w1.bill_items
    ∧ (create_bill_post req2 w1 2025 4242).payments = w1.payments :=
  C4_create_bill_atomic req2 w1 2025 4242
    (ApiError.typeError "include_dates is an invalid keyword argument for Bill")
    rfl

/-- C2 fails on the code: a cash request with a customer id present is
claimed to persist a `paid` bill and one Payment for the full amount, but
the handler raises `TypeError` (the `Bill` model defines no `include_dates`
column) and persists neither. -/
theorem C2_create_bill_code_bug :
    create_bill req2 w1 2025 4242
      = Except.error (ApiError.typeError
          "include_dates is an invalid keyword argument for Bill")
    ∧ (create_bill_post req2 w1 2025 4242).bills = w1.bills
    ∧ (create_bill_post req2 w1 2025 4242).payments = w1.payments :=
  ⟨rfl, rfl, rfl⟩

/-! ## Payment recording (`create_payment`, app.py lines 845-877) -/

/-- The JSON body accepted by `POST /api/payments`. -/
structure PaymentRequest where
  customer_id : Option Nat
  amount : Option ℚ
  payment_mode : Option String
  reference_number : Option String
  notes : Option String
  deriving Repr, DecidableEq

/-- Python truthiness of a nullable integer (`None` and `0` are falsy). -/
def pyTruthyNat (x : Option Nat) : Bool :=
  match x with
  | none => false
  | some n => decide (n ≠ 0)

/-- Python truthiness of a nullable number (`None` and `0` are falsy). -/
def pyTruthyRat (x : Option ℚ) : Bool :=
  match x with
  | none => false
  | some v => decide (v ≠ 0)

/-- `create_payment` (app.py lines 845-877): guards with
`if not customer_id or not amount`, then persists a standalone Payment
(`bill_id` is never set, so it stays `NULL`) and returns the new id. -/
def create_payment (req : PaymentRequest) (s : Store) :
    Except ApiError (Store × Nat) :=
  let customer_id := req.customer_id
  let amount := req.amount
  let payment_mode := req.payment_mode.getD "cash"
  let reference_number := req.reference_number.getD ""
  let notes := req.notes.getD ""
  if !pyTruthyNat customer_id || !pyTruthyRat amount then
    .error (.validation "Customer ID and amount are required")
  else
    let payment : Payment :=
      { id := s.next_id, customer_id := customer_id.getD 0, bill_id := none,
        amount := amount.getD 0, payment_mode := payment_mode,
        reference_number := some reference_number, notes := some notes }
    .ok ({ s with payments := s.payments ++ [payment],
                  next_id := s.next_id + 1 }, s.next_id)

/-- The store visible after a `POST /api/payments` request. -/
def create_payment_post (req : PaymentRequest) (s : Store) : Store :=
  match create_payment req s with
  | .ok (s2, _) => s2
  | .error _ => s

/-- A negative-amount payment request. -/
def req5neg : PaymentRequest :=
  { customer_id := some 1, amount := some (-5), payment_mode := none,
    reference_number := none, notes := none }

/-- C5 as stated is false: `amount = -5` is not rejected — the guard only
tests Python truthiness, so the negative payment is persisted. -/
theorem C5_negative_amount_accepted :
    (create_payment req5neg w1).isOk = true
    ∧ (create_payment_post req5neg w1).payments.length
        = w1.payments.length + 1 := by
  constructor
  · rfl
  · rfl

/-- C5 amended: `create_payment` rejects a request exactly when
`customer_id` or `amount` is absent or zero (Python falsiness); any other
amount — negative ones included — is persisted as a standalone Payment with
no bill reference, and the new payment's identifier is returned. -/
theorem C5_create_payment_amended (req : PaymentRequest) (s : Store) :
    ((pyTruthyNat req.customer_id = false ∨ pyTruthyRat req.amount = false) →
      create_payment req s
        = Except.error (ApiError.validation "Customer ID and amount are required"))
    ∧ (∀ cid amt, req.customer_id = some cid → cid ≠ 0 →
        req.amount = some amt → amt ≠ 0 →
        create_payment req s = Except.ok
          ({ s with
             payments := s.payments ++
               [{ id := s.next_id, customer_id := cid, bill_id := none,
                  amount := amt,
                  payment_mode := req.payment_mode.getD "cash",
                  reference_number := some (req.reference_number.getD ""),
                  notes := some (req.notes.getD "") }],
             next_id := s.next_id + 1 }, s.next_id)) := by
  constructor
  · intro h
    unfold create_payment
    rcases h with h | h <;> simp [h]
  · intro cid amt hcid hcid0 hamt hamt0
    unfold create_payment
    simp [hcid, hamt, pyTruthyNat, pyTruthyRat, hcid0, hamt0]

/-- A valid payment request used by the C5 witness. -/
def reqW5 : PaymentRequest :=
  { customer_id := some 1, amount := some 50, payment_mode := none,
    reference_number := none, notes := none }

theorem C5_create_payment_amended_witness :
    create_payment reqW5 w1 = Except.ok
      ({ w1 with
         payments := w1.payments ++
           [{ id := w1.next_id, customer_id := 1, bill_id := none,
              amount := 50, payment_mode := "cash",
              reference_number := some "", notes := some "" }],
         next_id := w1.next_id + 1 }, w1.next_id) :=
  (C5_create_payment_amended reqW5 w1).2 1 50 rfl (by decide) rfl (by decide)

/-! ## Inventory alert evaluator (`check_low_stock`, app.py lines 234-255) -/

/-- `create_notification` (app.py lines 145-163): inserts one unread
notification row and commits. -/
def create_notification (title message notification_type priority : String)
    (customer_id bill_id product_id : Option Nat) (s : Store) : Store :=
  { s with
    notifications := s.notifications ++
      [{ id := s.next_id, title := title, message := message,
         ntype := notification_type, priority := priority, is_read := false,
         customer_id := customer_id, bill_id := bill_id,
         product_id := product_id }],
    next_id := s.next_id + 1 }

/-- The low-stock condition `Product.stock_quantity <= Product.reorder_level`. -/
def low_stock (p : Product) : Bool :=
  p.stock_quantity ≤ p.reorder_level

/-- The `filter_by(type='inventory', product_id=product.id, is_read=False)`
row predicate. -/
def unreadInvMatches (pid : Nat) (n : Notification) : Bool :=
  n.ntype == "inventory" && n.product_id == some pid && n.is_read == false

/-- One iteration of the `check_low_stock` loop: skip the product when an
unread inventory notification for it already exists, otherwise create one. -/
def lowStockStep (acc : Store) (product : Product) : Store :=
  match acc.notifications.find? (unreadInvMatches product.id) with
  | some _ => acc
  | none =>
      create_notification ("Low Stock Alert: " ++ product.name)
        ("Only " ++ toString product.stock_quantity
          ++ " units left. Reorder level: " ++ toString product.reorder_level)
        "inventory" "high" none none (some product.id) acc

/-- `check_low_stock` (app.py lines 234-255): the under-threshold products
are selected once up front, then processed in order against the evolving
notification table (each `create_notification` commits, so later iterations
see earlier inserts). -/
def check_low_stock (s : Store) : Store :=
  (s.products.filter low_stock).foldl lowStockStep s

/-- Number of unread inventory notifications referencing product `pid`. -/
def countUnreadInv (s : Store) (pid : Nat) : Nat :=
  (s.notifications.filter (unreadInvMatches pid)).length

/-- The notification row `lowStockStep` inserts for product `q` (spelled
out for the proofs below; definitionally what `create_notification`
receives in `check_low_stock`). -/
def lowStockNotification (acc : Store) (q : Product) : Notification :=
  { id := acc.next_id, title := "Low Stock Alert: " ++ q.name,
    message := "Only " ++ toString q.stock_quantity
      ++ " units left. Reorder level: " ++ toString q.reorder_level,
    ntype := "inventory", priority := "high", is_read := false,
    customer_id := none, bill_id := none, product_id := some q.id }

theorem lowStockStep_of_find?_some (acc : Store) (q : Product)
    (n : Notification)
    (hf : acc.notifications.find? (unreadInvMatches q.id) = some n) :
    lowStockStep acc q = acc := by
  unfold lowStockStep
  rw [hf]

theorem lowStockStep_of_find?_none (acc : Store) (q : Product)
    (hf : acc.notifications.find? (unreadInvMatches q.id) = none) :
    lowStockStep acc q =
      { acc with
        notifications := acc.notifications ++ [lowStockNotification acc q],
        next_id := acc.next_id + 1 } := by
  unfold lowStockStep
  rw [hf]
  rfl

/-- Some unread inventory notification for `pid` exists. -/
def HasUnreadInv (s : Store) (pid : Nat) : Prop :=
  ∃ n ∈ s.notifications, unreadInvMatches pid n = true

theorem lowStockStep_products (acc : Store) (q : Product) :
    (lowStockStep acc q).products = acc.products := by
  unfold lowStockStep
  cases acc.notifications.find? (unreadInvMatches q.id) <;> rfl

theorem foldl_lowStockStep_products (l : List Product) (acc : Store) :
    (l.foldl lowStockStep acc).products = acc.products := by
  induction l generalizing acc with
  | nil => rfl
  | cons q t ih => rw [List.foldl_cons, ih, lowStockStep_products]

theorem hasUnreadInv_step_mono (acc : Store) (q : Product) (pid : Nat)
    (h : HasUnreadInv acc pid) : HasUnreadInv (lowStockStep acc q) pid := by
  obtain ⟨n, hn, hmatch⟩ := h
  unfold lowStockStep
  cases acc.notifications.find? (unreadInvMatches q.id) with
  | some _ => exact ⟨n, hn, hmatch⟩
  | none =>
      refine ⟨n, ?_, hmatch⟩
      simp [create_notification]
      exact Or.inl hn

theorem unreadInvMatches_lowStockNotification_self (acc : Store) (q : Product) :
    unreadInvMatches q.id (lowStockNotification acc q) = true := by
  simp [unreadInvMatches, lowStockNotification]

theorem hasUnreadInv_step_self (acc : Store) (q : Product) :
    HasUnreadInv (lowStockStep acc q) q.id := by
  cases hf : acc.notifications.find? (unreadInvMatches q.id) with
  | some n =>
      rw [lowStockStep_of_find?_some acc q n hf]
      exact ⟨n, List.mem_of_find?_eq_some hf, List.find?_some hf⟩
  | none =>
      rw [lowStockStep_of_find?_none acc q hf]
      exact ⟨lowStockNotification acc q, by simp,
        unreadInvMatches_lowStockNotification_self acc q⟩

theorem hasUnreadInv_foldl_mono (l : List Product) (acc : Store) (pid : Nat)
    (h : HasUnreadInv acc pid) : HasUnreadInv (l.foldl lowStockStep acc) pid := by
  induction l generalizing acc with
  | nil => exact h
  | cons q t ih =>
      rw [List.foldl_cons]
      exact ih _ (hasUnreadInv_step_mono acc q pid h)

theorem hasUnreadInv_foldl_all (l : List Product) (acc : Store) :
    ∀ q ∈ l, HasUnreadInv (l.foldl lowStockStep acc) q.id := by
  induction l generalizing acc with
  | nil => intro q hq; cases hq
  | cons r t ih =>
      intro q hq
      rw [List.foldl_cons]
      rcases List.mem_cons.mp hq with hq | hq
      · subst hq
        exact hasUnreadInv_foldl_mono t (lowStockStep acc q) q.id
          (hasUnreadInv_step_self acc q)
      · exact ih (lowStockStep acc r) q hq

theorem lowStockStep_of_hasUnreadInv (acc : Store) (q : Product)
    (h : HasUnreadInv acc q.id) : lowStockStep acc q = acc := by
  obtain ⟨n, hn, hmatch⟩ := h
  unfold lowStockStep
  cases hf : acc.notifications.find? (unreadInvMatches q.id) with
  | some _ => rfl
  | none =>
      exact absurd hmatch (List.find?_eq_none.mp hf n hn)

theorem foldl_lowStockStep_fixed (l : List Product) (acc : Store)
    (h : ∀ q ∈ l, HasUnreadInv acc q.id) : l.foldl lowStockStep acc = acc := by
  induction l with
  | nil => rfl
  | cons q t ih =>
      rw [List.foldl_cons, lowStockStep_of_hasUnreadInv acc q (h q (by simp))]
      exact ih (fun r hr => h r (by simp [hr]))

theorem check_low_stock_idem (s : Store) :
    check_low_stock (check_low_stock s) = check_low_stock s := by
  unfold check_low_stock
  rw [foldl_lowStockStep_products]
  exact foldl_lowStockStep_fixed _ _
    (fun q hq => hasUnreadInv_foldl_all _ s q hq)

theorem countUnreadInv_step_le (acc : Store) (q : Product) (pid : Nat) :
    countUnreadInv (lowStockStep acc q) pid ≤ max (countUnreadInv acc pid) 1 := by
  cases hf : acc.notifications.find? (unreadInvMatches q.id) with
  | some n =>
      rw [lowStockStep_of_find?_some acc q n hf]
      exact le_max_left _ _
  | none =>
      rw [lowStockStep_of_find?_none acc q hf]
      unfold countUnreadInv
      simp only [List.filter_append, List.length_append]
      by_cases hq : pid = q.id
      · have hzero :
            (acc.notifications.filter (unreadInvMatches pid)).length = 0 := by
          rw [List.length_eq_zero, List.filter_eq_nil_iff]
          intro n hn hmatch
          rw [hq] at hmatch
          exact absurd hmatch (by simpa using List.find?_eq_none.mp hf n hn)
        have hone :
            (List.filter (unreadInvMatches pid)
              [lowStockNotification acc q]).length ≤ 1 := by
          simp only [List.filter]
          split <;> simp
        rw [hzero]
        simpa using hone
      · have hmiss :
            unreadInvMatches pid (lowStockNotification acc q) = false := by
          simp only [unreadInvMatches, lowStockNotification]
          simp [Ne.symm hq]
        simp [List.filter_cons, hmiss]

theorem countUnreadInv_foldl_le (l : List Product) (acc : Store) (pid : Nat) :
    countUnreadInv (l.foldl lowStockStep acc) pid
      ≤ max (countUnreadInv acc pid) 1 := by
  induction l generalizing acc with
  | nil => exact le_max_left _ _
  | cons q t ih =>
      rw [List.foldl_cons]
      calc countUnreadInv (t.foldl lowStockStep (lowStockStep acc q)) pid
          ≤ max (countUnreadInv (lowStockStep acc q) pid) 1 := ih _
        _ ≤ max (max (countUnreadInv acc pid) 1) 1 :=
            max_le_max_right 1 (countUnreadInv_step_le acc q pid)
        _ = max (countUnreadInv acc pid) 1 := by rw [max_assoc, max_self]

/-- Property of a notification freshly created by the low-stock scan over
store `s`. -/
def CreatedByLowStock (s : Store) (n : Notification) : Prop :=
  n.priority = "high" ∧ n.ntype = "inventory"
    ∧ ∃ p ∈ s.products, low_stock p = true ∧ n.product_id = some p.id

theorem foldl_lowStockStep_created (s : Store) (l : List Product) (acc : Store)
    (hl : ∀ q ∈ l, q ∈ s.products ∧ low_stock q = true)
    (hacc : ∀ n ∈ acc.notifications, n ∈ s.notifications ∨ CreatedByLowStock s n) :
    ∀ n ∈ (l.foldl lowStockStep acc).notifications,
      n ∈ s.notifications ∨ CreatedByLowStock s n := by
  induction l generalizing acc with
  | nil => exact hacc
  | cons q t ih =>
      rw [List.foldl_cons]
      refine ih _ (fun r hr => hl r (by simp [hr])) ?_
      intro n hn
      unfold lowStockStep at hn
      cases hf : acc.notifications.find? (unreadInvMatches q.id) with
      | some _ =>
          rw [hf] at hn
          exact hacc n hn
      | none =>
          rw [hf] at hn
          simp [create_notification] at hn
          rcases hn with hn | hn
          · exact hacc n hn
          · subst hn
            refine Or.inr ⟨rfl, rfl, q, (hl q (by simp)).1,
              (hl q (by simp)).2, rfl⟩

/-- C6: the low-stock scan is idempotent — a second run with no intervening
state change is a no-op (`check_low_stock ∘ check_low_stock =
check_low_stock`); assuming the store starts with at most one unread
inventory notification per product (the invariant the scan itself
maintains), after the two runs every under-threshold product still has at
most one; and every notification the scan creates is an unread
`inventory`-type notification of priority `high` referencing an
under-threshold product. -/
theorem C6_low_stock_scan_idempotent (s : Store)
    (hone : ∀ pid, countUnreadInv s pid ≤ 1) :
    check_low_stock (check_low_stock s) = check_low_stock s
    ∧ (∀ p ∈ s.products, low_stock p = true →
        countUnreadInv (check_low_stock (check_low_stock s)) p.id ≤ 1)
    ∧ (∀ n ∈ (check_low_stock s).notifications, n ∉ s.notifications →
        n.priority = "high" ∧ n.ntype = "inventory"
          ∧ ∃ p ∈ s.products, low_stock p = true ∧ n.product_id = some p.id) := by
  refine ⟨check_low_stock_idem s, ?_, ?_⟩
  · intro p _hp _hlow
    rw [check_low_stock_idem s]
    calc countUnreadInv (check_low_stock s) p.id
        ≤ max (countUnreadInv s p.id) 1 := countUnreadInv_foldl_le _ s p.id
      _ ≤ 1 := max_le (hone p.id) le_rfl
  · intro n hn hnotin
    have := foldl_lowStockStep_created s (s.products.filter low_stock) s
      (fun q hq => ⟨(List.mem_filter.mp hq).1, (List.mem_filter.mp hq).2⟩)
      (fun m hm => Or.inl hm) n hn
    rcases this with h | h
    · exact absurd h hnotin
    · exact h

/-- Concrete store for the C6 witness: one product far below its reorder
level, no notifications yet. -/
def w6 : Store :=
  { emptyStore with
    products :=
      [ { id := 7, name := "Maggi Noodles", barcode := none,
          category := some "snacks", price := 14, cost_price := 12,
          price_per_kg := none, is_weight_based := false,
          stock_quantity := 2, reorder_level := 20 } ],
    next_id := 8 }

theorem C6_low_stock_scan_idempotent_witness :
    check_low_stock (check_low_stock w6) = check_low_stock w6 :=
  (C6_low_stock_scan_idempotent w6
    (by intro pid; simp [countUnreadInv, w6, emptyStore])).1

/-! ## Bill lookup (`api_get_bill`, app.py lines 809-843) -/

/-- The JSON a successful bill lookup would carry. -/
structure BillDetail where
  bill_number : String
  customer_name : Option String
  subtotal : ℚ
  tax_amount : ℚ
  discount_amount : ℚ
  total_amount : ℚ
  payment_mode : String
  payment_status : String
  generated_by : String
  include_dates : Bool
  items : List BillItem
  deriving Repr, DecidableEq

/-- Outcome of `GET /api/bills/<bill_number>`: 200 with the detail, 404
`Bill not found`, or 500 (an exception caught by the handler). -/
inductive BillLookupResult where
  | ok (detail : BillDetail)
  | notFound (error : String)
  | serverError (error : String)
  deriving Repr, DecidableEq

/-- `api_get_bill` (app.py lines 809-843): looks the bill up by number and
404s when absent; otherwise it assembles the response, but the response
dict reads `bill.include_dates`, an attribute the `Bill` model (app.py
lines 62-83) does not define, so an `AttributeError` is raised, caught by
the surrounding `except`, and returned as a 500 — the `ok` branch is
unreachable. -/
def api_get_bill (s : Store) (bill_number : String) : BillLookupResult :=
  match s.bills.find? (fun b => b.bill_number == bill_number) with
  | none => .notFound "Bill not found"
  | some bill =>
      let _items := s.bill_items.filter (fun it => it.bill_id == bill.id)
      .serverError "Bill object has no attribute include_dates"

/-- Concrete store for C7: it does contain a bill `KK-2025-1111`. -/
def s7 : Store :=
  { emptyStore with
    bills :=
      [ { id := 1, bill_number := "KK-2025-1111", customer_id := none,
          customer_name := some "Walk-in", subtotal := 200, tax_amount := 0,
          discount_amount := 0, total_amount := 200, payment_mode := "cash",
          payment_status := "paid", generated_by := "System",
          created_date := 1 } ],
    next_id := 2 }

/-- C7 fails on the code: the 404 half is right (unknown numbers yield
`Bill not found`), but looking up an existing bill returns a 500 — the
handler trips over the undefined `include_dates` attribute — never the full
bill detail the claim promises. -/
theorem C7_get_bill_code_bug :
    api_get_bill s7 "KK-2025-1111"
      = BillLookupResult.serverError "Bill object has no attribute include_dates"
    ∧ api_get_bill s7 "KK-2025-9999"
      = BillLookupResult.notFound "Bill not found"
    ∧ (∀ d, api_get_bill s7 "KK-2025-1111" ≠ BillLookupResult.ok d) := by
  refine ⟨rfl, rfl, ?_⟩
  intro d h
  have hred : api_get_bill s7 "KK-2025-1111"
      = BillLookupResult.serverError "Bill object has no attribute include_dates" :=
    rfl
  exact BillLookupResult.noConfusion (hred.symm.trans h)

/-! ## Report summarizer (`export_business_data`, app.py lines 1059-1068) -/

/-- The five summary aggregates of the PDF export. -/
structure BusinessSummary where
  total_products : Nat
  total_investment : ℚ
  total_sales : ℚ
  total_customers : Nat
  total_outstanding : ℚ
  deriving Repr, DecidableEq

/-- The aggregate block of `export_business_data` (app.py lines 1059-1068):
product count, `sum(p.price * p.stock_quantity for p in products if
p.price)`, `sum(b.total_amount for b in bills)` over all bills, customer
count, and `sum(c.outstanding_balance for c in customers)`. -/
def summarize_business (s : Store) : BusinessSummary :=
  let products := s.products
  let bills := s.bills
  let customers := s.customers
  { total_products := products.length,
    total_investment :=
      ((products.filter (fun p => p.price != 0)).map
        (fun p => p.price * (p.stock_quantity : ℚ))).sum,
    total_sales := (bills.map (fun b => b.total_amount)).sum,
    total_customers := customers.length,
    total_outstanding :=
      (customers.map (fun c => outstanding_balance s c.id)).sum }

/-- C8: the business summary is exactly the five aggregates — product
count, price-times-stock summed over products with a known (nonzero) price,
`total_amount` summed over every bill regardless of status, customer count,
and the ledger engine's outstanding balance summed over every customer —
and on the empty store all five are zero. -/
theorem C8_summarize_business (s : Store) :
    (summarize_business s).total_products = s.products.length
    ∧ (summarize_business s).total_investment
        = ((s.products.filter (fun p => p.price != 0)).map
            (fun p => p.price * (p.stock_quantity : ℚ))).sum
    ∧ (summarize_business s).total_sales
        = (s.bills.map (fun b => b.total_amount)).sum
    ∧ (summarize_business s).total_customers = s.customers.length
    ∧ (summarize_business s).total_outstanding
        = (s.customers.map (fun c =>
            ((s.bills.filter (fun b =>
                b.customer_id == some c.id && b.payment_status != "paid")).map
              (fun b => b.total_amount)).sum
            - ((s.payments.filter (fun p => p.customer_id == c.id)).map
                (fun p => p.amount)).sum)).sum
    ∧ summarize_business emptyStore
        = { total_products := 0, total_investment := 0, total_sales := 0,
            total_customers := 0, total_outstanding := 0 } := by
  refine ⟨rfl, rfl, rfl, rfl, ?_, rfl⟩
  have hmap : s.customers.map (fun c => outstanding_balance s c.id)
      = s.customers.map (fun c =>
          ((s.bills.filter (fun b =>
              b.customer_id == some c.id && b.payment_status != "paid")).map
            (fun b => b.total_amount)).sum
          - ((s.payments.filter (fun p => p.customer_id == c.id)).map
              (fun p => p.amount)).sum) :=
    List.map_congr_left (fun c _ => (C1_outstanding_balance s c.id).1)
  show (s.customers.map (fun c => outstanding_balance s c.id)).sum = _
  rw [hmap]

/-! ## Dashboard daily profit (`get_dashboard_stats`, app.py lines 544-648) -/

/-- The day's `paid` bills (`db.func.date(Bill.created_at) == day` and
`Bill.payment_status == 'paid'`). -/
def paid_bills_on (s : Store) (day : Nat) : List Bill :=
  s.bills.filter (fun b => b.created_date == day && b.payment_status == "paid")

/-- `BillItem.query.filter_by(bill_id=...)`. -/
def bill_items_of (s : Store) (bid : Nat) : List BillItem :=
  s.bill_items.filter (fun it => it.bill_id == bid)

/-- `Product.query.filter_by(name=item.item_name).first()`. -/
def product_by_name (s : Store) (nm : String) : Option Product :=
  s.products.find? (fun p => p.name == nm)

/-- Python truthiness of a nullable float field. -/
def optTruthy (x : Option ℚ) : Bool :=
  match x with
  | none => false
  | some v => decide (v ≠ 0)

/-- Running cost/revenue accumulators of the dashboard loop. -/
structure DayAgg where
  actual_cost : ℚ
  total_revenue : ℚ
  deriving Repr, DecidableEq

/-- One iteration of the dashboard item loop (app.py lines 564-581): items
whose name matches no product are skipped; a matched product with a
positive cost price contributes its cost (weight-prorated when weight-based
with a recorded weight and a set `price_per_kg`); otherwise the estimated
cost `unit_price * 0.65 * quantity` is used; in both matched branches the
item's `total_price` is added to the revenue. -/
def process_item (s : Store) (acc : DayAgg) (item : BillItem) : DayAgg :=
  match product_by_name s item.item_name with
  | none => acc
  | some product =>
      if product.cost_price > 0 then
        let item_cost :=
          if product.is_weight_based && optTruthy item.weight then
            if optTruthy product.price_per_kg then
              (product.cost_price / 1000) * (item.weight.getD 0)
            else product.cost_price * item.quantity
          else product.cost_price * item.quantity
        { actual_cost := acc.actual_cost + item_cost,
          total_revenue := acc.total_revenue + item.total_price }
      else
        let item_cost := item.unit_price * (65 / 100) * item.quantity
        { actual_cost := acc.actual_cost + item_cost,
          total_revenue := acc.total_revenue + item.total_price }

/-- The nested dashboard loop: over the day's paid bills, over each bill's
items. -/
def day_totals (s : Store) (day : Nat) : DayAgg :=
  (paid_bills_on s day).foldl
    (fun acc b => (bill_items_of s b.id).foldl (process_item s) acc)
    { actual_cost := 0, total_revenue := 0 }

/-- `today_profit = total_revenue - actual_cost` for one day. -/
def daily_profit (s : Store) (day : Nat) : ℚ :=
  (day_totals s day).total_revenue - (day_totals s day).actual_cost

/-- The dashboard's `profit_growth` field, computed from today's and
yesterday's daily profits. -/
def dashboard_profit_growth (s : Store) (today yesterday : Nat) : ℚ :=
  profit_growth (daily_profit s yesterday) (daily_profit s today)

/-- All line items of the day's paid bills, in processing order. -/
def day_items (s : Store) (day : Nat) : List BillItem :=
  (paid_bills_on s day).flatMap (fun b => bill_items_of s b.id)

theorem process_item_revenue (s : Store) (acc : DayAgg) (item : BillItem) :
    (process_item s acc item).total_revenue
      = acc.total_revenue
        + (if (product_by_name s item.item_name).isSome
           then item.total_price else 0) := by
  unfold process_item
  cases product_by_name s item.item_name with
  | none => simp
  | some product =>
      by_cases h : product.cost_price > 0 <;> simp [h]

theorem foldl_process_item_revenue (s : Store) (l : List BillItem)
    (acc : DayAgg) :
    (l.foldl (process_item s) acc).total_revenue
      = acc.total_revenue
        + ((l.filter (fun it => (product_by_name s it.item_name).isSome)).map
            (fun it => it.total_price)).sum := by
  induction l generalizing acc with
  | nil => simp
  | cons it t ih =>
      rw [List.foldl_cons, ih, process_item_revenue]
      by_cases h : (product_by_name s it.item_name).isSome <;>
        simp [List.filter_cons, h, add_assoc]

theorem foldl_bills_eq_flat (s : Store) (bills : List Bill) (acc : DayAgg) :
    bills.foldl
        (fun acc b => (bill_items_of s b.id).foldl (process_item s) acc) acc
      = (bills.flatMap (fun b => bill_items_of s b.id)).foldl
          (process_item s) acc := by
  induction bills generalizing acc with
  | nil => rfl
  | cons b t ih =>
      rw [List.foldl_cons, List.flatMap_cons, List.foldl_append, ih]

theorem day_totals_eq_flat (s : Store) (day : Nat) :
    day_totals s day
      = (day_items s day).foldl (process_item s)
          { actual_cost := 0, total_revenue := 0 } := by
  unfold day_totals day_items
  exact foldl_bills_eq_flat s (paid_bills_on s day) _

/-- Concrete store for C10: one paid bill today whose only item names a
product absent from the catalog. -/
def s10 : Store :=
  { emptyStore with
    bills :=
      [ { id := 1, bill_number := "KK-2025-2222", customer_id := none,
          customer_name := some "Walk-in", subtotal := 50, tax_amount := 0,
          discount_amount := 0, total_amount := 50, payment_mode := "cash",
          payment_status := "paid", generated_by := "System",
          created_date := 1 } ],
    bill_items :=
      [ { id := 2, bill_id := 1, item_name := "Ghost Pepper", quantity := 1,
          unit_price := 50, total_price := 50, weight := none,
          price_per_kg := none } ],
    next_id := 3 }

/-- C10: a bill item whose name matches no product is skipped entirely — it
changes neither accumulator — so the day's `total_revenue` is the sum of
`total_price` over only the catalog-matched items, and on a store whose
paid bill carries an uncatalogued item it is strictly below the full item
total. -/
theorem C10_unmatched_items_skipped :
    (∀ (s : Store) (acc : DayAgg) (item : BillItem),
        product_by_name s item.item_name = none →
        process_item s acc item = acc)
    ∧ (∀ (s : Store) (day : Nat),
        (day_totals s day).total_revenue
          = (((day_items s day).filter
                (fun it => (product_by_name s it.item_name).isSome)).map
              (fun it => it.total_price)).sum)
    ∧ (day_totals s10 1).total_revenue
        < ((day_items s10 1).map (fun it => it.total_price)).sum := by
  refine ⟨?_, ?_, ?_⟩
  · intro s acc item h
    unfold process_item
    rw [h]
  · intro s day
    rw [day_totals_eq_flat, foldl_process_item_revenue]
    simp
  · have h1 : (day_totals s10 1).total_revenue = 0 := by
      simp [day_totals, paid_bills_on, bill_items_of, process_item,
        product_by_name, s10, emptyStore]
    have h2 : ((day_items s10 1).map (fun it => it.total_price)).sum = 50 := by
      simp [day_items, paid_bills_on, bill_items_of, s10, emptyStore]
    rw [h1, h2]
    norm_num

theorem C10_unmatched_items_skipped_witness :
    process_item s10 { actual_cost := 0, total_revenue := 0 }
        { id := 2, bill_id := 1, item_name := "Ghost Pepper", quantity := 1,
          unit_price := 50, total_price := 50, weight := none,
          price_per_kg := none }
      = { actual_cost := 0, total_revenue := 0 } :=
  C10_unmatched_items_skipped.1 s10
    { actual_cost := 0, total_revenue := 0 }
    { id := 2, bill_id := 1, item_name := "Ghost Pepper", quantity := 1,
      unit_price := 50, total_price := 50, weight := none,
      price_per_kg := none }
    rfl

end Kirana
